import Mathlib

/-!
Verification of the BAMS employee-client liveness/presence subsystem.

Shallow embedding of the JavaScript sources:
  - `src/services/HeartbeatService.js` (scheduler, offline queue, failure policy)
  - `src/services/LocationService.js`  (forceUpdate fix acquisition)
  - `src/services/AuthService.js`      (response interceptors, verifySession)
  - `src/App.js` and the variant App (session restore, forceLogout handling)

Conventions of the embedding:
  - JavaScript values that may be `undefined`/`null` are modelled with `Option`;
    a strict comparison `x === v` becomes `x = some v`.
  - Epoch-millisecond times are `Nat`; GPS accuracies are whole metres (`Nat`),
    which is exact for every threshold and example value the policies use.
  - Asynchronous code is modelled sequentially: one cycle runs to completion
    before the next event is processed (single-threaded event loop).
  - Outbound calls (transmissions, logout API, the failure callback) are
    recorded as an ordered list of `Effect`s produced by each operation.
-/

/-- A location fix; coordinates are opaque for every property considered,
only the accuracy (metres) and an identifying tag matter. -/
structure Location where
  tag : Nat
  accuracy : Nat
  deriving DecidableEq, Repr

/-- A queued heartbeat pulse, as built by `queueHeartbeat` in
`HeartbeatService.js` (timestamp, location, sessionId, deviceId). -/
structure HeartbeatPulse where
  timestamp : Nat
  location : Location
  sessionId : String
  deviceId : String
  deriving DecidableEq, Repr

/-- The normalized transport result shape returned by `AuthService`
(`{httpStatus, ok, message, error, login_status, force_logout}`);
absent fields are `none`. -/
structure HBResponse where
  ok : Option Bool
  statusCode : Option Nat
  message : Option String
  error : Option String
  login_status : Option Bool
  force_logout : Option Bool
  deriving DecidableEq, Repr

/-- Mutable state of the `HeartbeatService` singleton
(`src/services/HeartbeatService.js`, constructor).  `intervalArmed` models
`intervalId !== null`, `hasFailureCallback` models
`onFailureCallback !== null`. -/
structure HBState where
  intervalArmed : Bool
  sessionId : Option String
  deviceId : Option String
  isActive : Bool
  failureCount : Nat
  hasFailureCallback : Bool
  lastHeartbeat : Option Nat
  isOnline : Bool
  queuedHeartbeats : List HeartbeatPulse
  deriving DecidableEq, Repr

/-- Observable outbound actions of one scheduler operation. -/
inductive Effect where
  /-- `AuthService.sendHeartbeat(...)` was called with this pulse. -/
  | transmit (p : HeartbeatPulse)
  /-- best-effort `AuthService.logout(...)` was called (result swallowed). -/
  | logoutApi
  /-- `this.onFailureCallback(msg)` was invoked. -/
  | invokeFailureCallback (msg : String)
  deriving DecidableEq, Repr

/-- Whether an effect is a failure-callback invocation. -/
def isCallbackEffect : Effect → Bool
  | Effect.invokeFailureCallback _ => true
  | Effect.transmit _ => false
  | Effect.logoutApi => false

/-- Number of failure-callback invocations in an effect list. -/
def callbackCount (effs : List Effect) : Nat :=
  (effs.filter isCallbackEffect).length

/-- `stop()` (HeartbeatService.js lines 57-81): returns unchanged when not
active; otherwise cancels the timer and clears session id, device id, the
failure callback, the failure count and the queue.  `lastHeartbeat` and
`isOnline` are not touched. -/
def stop (s : HBState) : HBState :=
  if s.isActive then
    { intervalArmed := false
      sessionId := none
      deviceId := none
      isActive := false
      failureCount := 0
      hasFailureCallback := false
      lastHeartbeat := s.lastHeartbeat
      isOnline := s.isOnline
      queuedHeartbeats := [] }
  else s

/-- JavaScript `haystack.includes(needle)` on strings. -/
def jsIncludes (haystack needle : String) : Bool :=
  (haystack.splitOn needle).length > 1

/-- The message chosen in `handleHeartbeatFailure` (lines 194-198). -/
def failureMessage (reason : String) : String :=
  if jsIncludes reason "Server rejected" || jsIncludes reason "connection" then
    "Server connection lost. Please login again."
  else
    "Session validation failed. Please login again."

/-- `handleHeartbeatFailure(reason)` (lines 184-200): increment the failure
count, stop the service, then invoke the callback only if
`this.onFailureCallback` is still set — `stop()` has just cleared it. -/
def handleHeartbeatFailure (s : HBState) (reason : String) : HBState × List Effect :=
  let s1 := { s with failureCount := s.failureCount + 1 }
  let s2 := stop s1
  (s2, if s2.hasFailureCallback then [Effect.invokeFailureCallback (failureMessage reason)] else [])

/-- `handleSessionExpired()` (lines 205-217): stop the service, then invoke
the callback only if `this.onFailureCallback` is still set. -/
def handleSessionExpired (s : HBState) : HBState × List Effect :=
  let s2 := stop s
  (s2, if s2.hasFailureCallback then
         [Effect.invokeFailureCallback "Session expired. Please login again."]
       else [])

/-- `queueHeartbeat`'s list update (lines 228-233): push, then
`slice(-5)` when more than 5 entries are held, keeping the newest 5. -/
def enqueuePulse (q : List HeartbeatPulse) (p : HeartbeatPulse) : List HeartbeatPulse :=
  let q1 := q ++ [p]
  if q1.length > 5 then q1.drop (q1.length - 5) else q1

/-- `queueHeartbeat(location)` (lines 220-234): build the pulse record and
append it under the 5-entry bound. -/
def queueHeartbeat (s : HBState) (now : Nat) (loc : Location) : HBState :=
  let hb : HeartbeatPulse := ⟨now, loc, s.sessionId.getD "", s.deviceId.getD ""⟩
  { s with queuedHeartbeats := enqueuePulse s.queuedHeartbeats hb }

/-- `processQueuedHeartbeats()` (lines 239-267): when the queue is non-empty,
transmit only the most recently queued pulse; the transport result `r` is
inspected only for logging; the queue is cleared unconditionally. -/
def processQueuedHeartbeats (s : HBState) (_r : HBResponse) : HBState × List Effect :=
  match s.queuedHeartbeats.getLast? with
  | none => (s, [])
  | some p => ({ s with queuedHeartbeats := [] }, [Effect.transmit p])

/-- JavaScript `a || b || c` over the optional response fields
(`undefined`/`null` falls through; the empty string never occurs here). -/
def orElse2 (a b : Option String) (c : String) : String :=
  match a with
  | some x => x
  | none => match b with
            | some y => y
            | none => c

/-- `sendHeartbeat()` (lines 86-165), one cycle.  Inputs: the state, the
current epoch time, the location produced by `forceUpdate`-or-cached-fallback
(`none` when both fail), the server response `r` for the main transmission and
the response `qr` for a possible queued-pulse retransmission.  Produces the
new state and the ordered effects of the cycle. -/
def sendHeartbeat (s : HBState) (now : Nat) (locResult : Option Location)
    (r qr : HBResponse) : HBState × List Effect :=
  if s.isActive = false ∨ s.sessionId = none ∨ s.deviceId = none then
    (s, [])
  else
    match locResult with
    | none => handleHeartbeatFailure s "No location data"
    | some loc =>
      if s.isOnline = false then
        (queueHeartbeat s now loc, [])
      else
        let pulse : HeartbeatPulse := ⟨now, loc, s.sessionId.getD "", s.deviceId.getD ""⟩
        let tx : List Effect := [Effect.transmit pulse]
        if r.login_status = some false then
          -- lines 123-141: best-effort logout (failure swallowed), stop,
          -- then the callback check — which `stop()` has already nulled.
          let s2 := stop s
          (s2, tx ++ [Effect.logoutApi] ++
            (if s2.hasFailureCallback then
              [Effect.invokeFailureCallback
                (orElse2 r.message r.error "Session invalidated by server")]
             else []))
        else if r.ok = some true then
          -- handleHeartbeatSuccess (lines 170-179)
          let s1 := { s with failureCount := 0, lastHeartbeat := some now }
          if s1.queuedHeartbeats.length > 0 then
            let pq := processQueuedHeartbeats s1 qr
            (pq.1, tx ++ pq.2)
          else
            (s1, tx)
        else if r.statusCode = some 401 ∨ r.message = some "Session expired" then
          let he := handleSessionExpired s
          (he.1, tx ++ he.2)
        else
          let hf := handleHeartbeatFailure s
            (orElse2 r.error r.message "Server rejected heartbeat")
          (hf.1, tx ++ hf.2)

/-- The timer arrangement set up by `start()` (lines 41-52): one immediate
`sendHeartbeat()` plus `setInterval(..., this.interval)` — a repeating
fixed-period timer whose first fire is `now + interval`. -/
structure Schedule where
  immediateSendAt : Nat
  firstTimerFireAt : Nat
  timerPeriodic : Bool
  timerPeriod : Nat
  deriving DecidableEq, Repr

/-- Timer behaviour of `start()` as implemented. -/
def startSchedule (now interval : Nat) : Schedule :=
  { immediateSendAt := now
    firstTimerFireAt := now + interval
    timerPeriodic := true
    timerPeriod := interval }

/-- `initializeApp` (variant App, lines 56-67): the UI's displayed
next-heartbeat time after session restore,
`now + (HEARTBEAT_INTERVAL_MS - timeSinceLastHeartbeatMs)`.
It is only stored via `setNextHeartbeatTime`, never fed to the scheduler. -/
def restoreDisplayedNextHeartbeat (now interval timeSinceLast : Int) : Int :=
  now + (interval - timeSinceLast)

/-- Modelled from the spec's words, for comparison with `startSchedule`:
the drift-corrected first fire time the spec describes on session restore
(`lastSuccessTimestamp + interval`, i.e. `now + interval - timeSinceLast`). -/
def specDriftFirstFire (now interval timeSinceLast : Nat) : Nat :=
  now + interval - timeSinceLast

/-- The body fields the interceptors in `AuthService.js` inspect
(`response.data`); absent fields are `none`. -/
structure RespData where
  login_status : Option Bool
  force_logout : Option Bool
  message : Option String
  error : Option String
  deriving DecidableEq, Repr

/-- A `forceLogout` CustomEvent dispatched on `window` by an interceptor. -/
structure Dispatch where
  reason : String
  source : String
  deriving DecidableEq, Repr

/-- Success-path response interceptor (`AuthService.js` lines 37-75):
the first `login_status === false` block dispatches and returns early,
so the second (`login_status === false || force_logout === true`) block
only ever fires for `force_logout`.  `none` models `response.data` being
absent (the second block then reads `{}`). -/
def successDispatches : Option RespData → List Dispatch
  | none => []
  | some d =>
    if d.login_status = some false then
      [⟨orElse2 d.message d.error "Session invalidated by server", "api_interceptor"⟩]
    else if d.login_status = some false ∨ d.force_logout = some true then
      [⟨orElse2 d.message d.error "Session invalidated by server", "api_response_force"⟩]
    else []

/-- Error-path response interceptor (`AuthService.js` lines 76-116).
`response = none` models a transport-level failure (`error.response`
undefined: no HTTP status, no body); `errMessage` is `error.message`.
Both dispatch blocks run in order: the first fires on
`login_status === false`, the second on the explicit server signal or an
auth-class status (401, 403, 419, 440) — so a `login_status:false` error
body dispatches twice. -/
def errorDispatches (response : Option (Nat × RespData)) (errMessage : String) :
    List Dispatch :=
  match response with
  | none => []
  | some (status, d) =>
    (if d.login_status = some false then
      [⟨orElse2 d.message d.error "Session invalidated by server", "api_interceptor_error"⟩]
     else []) ++
    (if d.login_status = some false ∨ d.force_logout = some true ∨
        status ∈ [401, 403, 419, 440] then
      [⟨orElse2 d.message d.error errMessage, "api_interceptor_error_force"⟩]
     else [])

/-- Host-application state relevant to logout handling (variant `App.js`). -/
structure AppState where
  isLoggedIn : Bool
  sessionId : Option String
  hb : HBState
  deriving DecidableEq, Repr

/-- Observable actions of the host application's logout path. -/
inductive AppEffect where
  /-- `NotificationService.showLogoutNotification(msg, src)` -/
  | showNotification (msg src : String)
  /-- best-effort `AuthService.logout(...)` call -/
  | logoutApiCall
  /-- `clearSession()` ran (heartbeat stopped, storage cleared, state reset) -/
  | sessionCleared
  deriving DecidableEq, Repr

/-- `clearSession()` : stops the heartbeat service (idempotent), removes the
saved session and resets the React session state. -/
def clearSession (a : AppState) : AppState :=
  { isLoggedIn := false, sessionId := none, hb := stop a.hb }

/-- `handleAutoLogout(reason)` of the variant `App.js` (lines 517-562):
extracts a message and source, shows a notification, makes a best-effort
logout API call when a session id is still set, and always clears the
session.  There is no `isLoggedIn` guard. -/
def handleAutoLogout (a : AppState) (d : Dispatch) : AppState × List AppEffect :=
  let notif := [AppEffect.showNotification d.reason d.source]
  let api := if a.sessionId.isSome then [AppEffect.logoutApiCall] else []
  (clearSession a, notif ++ api ++ [AppEffect.sessionCleared])

/-- The `forceLogout` window listener (variant `App.js` lines 426-442):
shows a notification for the event, then runs `handleAutoLogout` with the
event detail. -/
def onForceLogoutEvent (a : AppState) (d : Dispatch) : AppState × List AppEffect :=
  let h := handleAutoLogout a d
  (h.1, AppEffect.showNotification d.reason d.source :: h.2)

/-- Sequential processing of a series of dispatched `forceLogout` events. -/
def processForceLogoutEvents (a : AppState) : List Dispatch → AppState × List AppEffect
  | [] => (a, [])
  | d :: rest =>
    let fst := onForceLogoutEvent a d
    let snd := processForceLogoutEvents fst.1 rest
    (snd.1, fst.2 ++ snd.2)

/-- Whether an app effect is a `clearSession` teardown execution. -/
def isClearEffect : AppEffect → Bool
  | AppEffect.sessionCleared => true
  | _ => false

/-- Number of `sessionCleared` teardown executions in an effect list. -/
def clearCount (effs : List AppEffect) : Nat :=
  (effs.filter isClearEffect).length

/-- Whether an app effect is a best-effort server logout call. -/
def isLogoutApiEffect : AppEffect → Bool
  | AppEffect.logoutApiCall => true
  | _ => false

/-- Number of best-effort server logout calls in an effect list. -/
def logoutApiCount (effs : List AppEffect) : Nat :=
  (effs.filter isLogoutApiEffect).length

/-- An event delivered to `forceUpdate`'s `watchPosition` callbacks
(`LocationService.js` lines 222-291): a position reading with its accuracy
in metres at elapsed milliseconds since the call, or a geolocation error. -/
inductive GeoEvent where
  | reading (elapsedMs : Nat) (accuracy : Nat)
  | geoError (elapsedMs : Nat) (code : Nat)
  deriving DecidableEq, Repr

/-- Millisecond mark of the ultimate timeout fallback
(`setTimeout(..., 75000)`, lines 294-310). -/
def fallbackAtMs : Nat := 75000

/-- Millisecond cutoff after which the best reading so far is used
(`elapsed > 60000`, line 250). -/
def bestCutoffMs : Nat := 60000

/-- What one `watchPosition` success callback decides. -/
inductive WatchStep where
  /-- `acc < 50`: excellent lock, resolve with this reading (line 236). -/
  | resolveNow (accuracy : Nat)
  /-- more than 60 s elapsed: resolve with the best reading so far (line 250). -/
  | resolveBest
  /-- no tier matched: keep waiting. -/
  | continueWait
  deriving DecidableEq, Repr

/-- Best-accuracy tracking done at the top of the callback
(lines 228-231): the first reading always becomes the best. -/
def updateBest (best : Option Nat) (acc : Nat) : Option Nat :=
  match best with
  | none => some acc
  | some b => if acc < b then some acc else some b

/-- One `watchPosition` success callback of `forceUpdate` (lines 223-273):
update the best reading, then accept immediately when `acc < 50`, fall back
to the best reading once 60 s have elapsed, otherwise keep waiting.
Returns the updated best accuracy and the decision. -/
def forceUpdateStep (elapsed acc : Nat) (best : Option Nat) :
    Option Nat × WatchStep :=
  let best1 := updateBest best acc
  if acc < 50 then (best1, WatchStep.resolveNow acc)
  else if elapsed > bestCutoffMs then (best1, WatchStep.resolveBest)
  else (best1, WatchStep.continueWait)

/-- Modelled from the spec's words, for comparison with `forceUpdateStep`:
the tiered acceptance policy the spec describes (accuracy < 30 m at any
time; < 50 m after 10 s; < 100 m after 30 s). -/
def specTierAccepts (elapsed acc : Nat) : Bool :=
  acc < 30 || (acc < 50 && elapsed ≥ 10000) || (acc < 100 && elapsed ≥ 30000)

/-- Outcome of one `forceUpdate()` call: when it settled (ms after the call)
and whether the promise resolved with a fix (`true`) or rejected (`false`). -/
structure FixRunResult where
  settledAtMs : Nat
  resolved : Bool
  deriving DecidableEq, Repr

/-- A full run of `forceUpdate()` over a chronological stream of geolocation
events.  `cached` is whether `this.currentLocation` already holds a fix.
An event callback at or after the 75 s mark never runs: the ultimate
fallback (lines 294-310) has already settled the promise — resolving with
the best or cached position if one exists, else rejecting with the GPS
timeout error.  An error callback rejects; a reading callback settles per
`forceUpdateStep` (in its over-60 s branch the best reading exists, the
current reading having just been folded in). -/
def forceUpdateRun (cached : Bool) (best : Option Nat) :
    List GeoEvent → FixRunResult
  | [] => ⟨fallbackAtMs, best.isSome || cached⟩
  | GeoEvent.geoError t _ :: _ =>
    if fallbackAtMs ≤ t then ⟨fallbackAtMs, best.isSome || cached⟩
    else ⟨t, false⟩
  | GeoEvent.reading t acc :: rest =>
    if fallbackAtMs ≤ t then ⟨fallbackAtMs, best.isSome || cached⟩
    else
      match forceUpdateStep t acc best with
      | (_, WatchStep.resolveNow _) => ⟨t, true⟩
      | (_, WatchStep.resolveBest) => ⟨t, true⟩
      | (best1, WatchStep.continueWait) => forceUpdateRun cached best1 rest

/-- Server response shape consulted by `verifySession`
(`AuthService.js` lines 198-219). -/
structure VerifyResp where
  ok : Option Bool
  deriving DecidableEq, Repr

/-- What `verifySession` hands back to its caller. -/
structure VerifyOutcome where
  valid : Bool
  hasSession : Bool
  deriving DecidableEq, Repr

/-- `verifySession(sessionId)` (lines 198-219): a total function — the
`catch` turns every transport failure into `{valid:false}`, and any
response without `ok === true` also yields `{valid:false}`; no path
rejects. -/
def verifySession : Except String VerifyResp → VerifyOutcome
  | Except.error _ => ⟨false, false⟩
  | Except.ok r => if r.ok = some true then ⟨true, true⟩ else ⟨false, false⟩

/-- The JavaScript values the session-restore condition can see. -/
inductive JsVal where
  | vUndefined
  | vNull
  | vBool (b : Bool)
  | vObj (o : VerifyOutcome)
  deriving DecidableEq, Repr

/-- JavaScript truthiness over the modelled value space: `undefined`,
`null` and `false` are falsy; every object is truthy. -/
def jsTruthy : JsVal → Bool
  | JsVal.vUndefined => false
  | JsVal.vNull => false
  | JsVal.vBool b => b
  | JsVal.vObj _ => true

/-- `verifySession` as seen by `App.js`: the returned value is always an
object. -/
def verifySessionJs (x : Except String VerifyResp) : JsVal :=
  JsVal.vObj (verifySession x)

/-- What the restore path of `initializeApp` did. -/
structure RestoreOutcome where
  restored : Bool
  heartbeatStarted : Bool
  savedSessionCleared : Bool
  deriving DecidableEq, Repr

/-- Saved-session restore in `initializeApp` (`src/App.js` lines 42-67):
when a saved session with a session id exists, bind
`isValid = await AuthService.verifySession(...)` and branch on
`if (isValid)` — the truthiness of the returned value. -/
def initializeAppRestore (savedSessionId : Option String)
    (verifyInput : Except String VerifyResp) : RestoreOutcome :=
  match savedSessionId with
  | none => ⟨false, false, false⟩
  | some _ =>
    if jsTruthy (verifySessionJs verifyInput) then
      ⟨true, true, false⟩
    else
      ⟨false, false, true⟩

/-! Concrete fixtures used to evaluate the model at specific inputs. -/

/-- A 25 m fix. -/
def loc0 : Location := ⟨0, 25⟩

/-- A properly started scheduler: active, session and device ids set,
failure callback registered, online, empty queue. -/
def runningState : HBState :=
  ⟨true, some "sess-1", some "dev-1", true, 0, true, none, true, []⟩

/-- A rejected heartbeat: `{ok:false, statusCode:500, error:...}`. -/
def rejectResp : HBResponse :=
  ⟨some false, some 500, none, some "Server rejected heartbeat", none, none⟩

/-- A successful heartbeat response. -/
def okResp : HBResponse := ⟨some true, some 200, none, none, none, none⟩

/-- A response with `ok:true` but `login_status:false`. -/
def invalidResp : HBResponse :=
  ⟨some true, some 200, some "Session invalidated by server", none, some false, none⟩

/-- A response body carrying none of the inspected fields. -/
def emptyRespData : RespData := ⟨none, none, none, none⟩

/-- A logged-in host application over `runningState`. -/
def loggedInApp : AppState := ⟨true, some "sess-1", runningState⟩

/-- An `Invalid` verdict coming from a heartbeat response. -/
def invalidVerdictA : Dispatch := ⟨"Session invalidated by server", "api_interceptor"⟩

/-- An `Invalid` verdict coming from an unrelated API call. -/
def invalidVerdictB : Dispatch := ⟨"Session expired", "api_interceptor_error_force"⟩

/-! Helper lemmas. -/

theorem stop_hasCallback_false (s : HBState) (h : s.isActive = true) :
    (stop s).hasFailureCallback = false := by
  simp [stop, h]

theorem stop_isActive_false (s : HBState) (h : s.isActive = true) :
    (stop s).isActive = false := by
  simp [stop, h]

theorem handleHeartbeatFailure_no_callback (s : HBState) (h : s.isActive = true)
    (reason : String) : (handleHeartbeatFailure s reason).2 = [] := by
  have hc : (stop { s with failureCount := s.failureCount + 1 }).hasFailureCallback = false :=
    stop_hasCallback_false _ h
  simp [handleHeartbeatFailure, hc]

theorem handleSessionExpired_no_callback (s : HBState) (h : s.isActive = true) :
    (handleSessionExpired s).2 = [] := by
  simp [handleSessionExpired, stop_hasCallback_false s h]

theorem processQueuedHeartbeats_no_callback (s : HBState) (r : HBResponse) :
    callbackCount (processQueuedHeartbeats s r).2 = 0 := by
  cases hq : s.queuedHeartbeats.getLast? with
  | none => simp [processQueuedHeartbeats, hq, callbackCount]
  | some p => simp [processQueuedHeartbeats, hq, callbackCount, isCallbackEffect]

theorem callbackCount_append (e1 e2 : List Effect) :
    callbackCount (e1 ++ e2) = callbackCount e1 + callbackCount e2 := by
  simp [callbackCount, List.filter_append]

/-- Core fact shared by the failure-policy analyses: the failure callback is
never invoked by any heartbeat cycle, because every failure handler runs
`stop()` (which nulls `onFailureCallback`) before testing it. -/
theorem sendHeartbeat_no_callback (s : HBState) (now : Nat)
    (locResult : Option Location) (r qr : HBResponse) :
    callbackCount (sendHeartbeat s now locResult r qr).2 = 0 := by
  unfold sendHeartbeat
  split
  · simp [callbackCount]
  · rename_i hguard
    have hact : s.isActive = true := by
      cases h : s.isActive with
      | false => exact absurd (Or.inl h) hguard
      | true => rfl
    cases locResult with
    | none =>
      simp [handleHeartbeatFailure_no_callback s hact, callbackCount]
    | some loc =>
      cases hon : s.isOnline with
      | false => simp [hon, callbackCount]
      | true =>
        by_cases hls : r.login_status = some false
        · simp [hon, hls, stop_hasCallback_false s hact, callbackCount]
          exact ⟨rfl, rfl⟩
        · by_cases hok : r.ok = some true
          · by_cases hq : s.queuedHeartbeats.length > 0
            · have h2 := processQueuedHeartbeats_no_callback
                ({ s with failureCount := 0, lastHeartbeat := some now }) qr
              rw [hon] at h2
              simp [callbackCount, isCallbackEffect] at h2
              simp [hon, hls, hok, hq, callbackCount, isCallbackEffect]
              exact h2
            · simp [hon, hls, hok, hq, callbackCount, isCallbackEffect]
          · by_cases h401 : r.statusCode = some 401 ∨ r.message = some "Session expired"
            · simp [hon, hls, hok, h401, callbackCount_append,
                handleSessionExpired_no_callback s hact, callbackCount]
              rfl
            · simp [hon, hls, hok, h401, callbackCount_append,
                handleHeartbeatFailure_no_callback s hact, callbackCount]
              rfl

/-- The scheduler state left behind by a cycle whose response was rejected. -/
def stoppedAfterReject : HBState :=
  (sendHeartbeat runningState 1000 (some loc0) rejectResp okResp).1

/-- C1: for a heartbeat cycle whose response has `ok !== true` (and is not
the `login_status:false` case) the scheduler does transition to Stopped
within the cycle and no further heartbeat is ever sent, but the
`onTerminalFailure` callback is NEVER invoked — `stop()` nulls
`onFailureCallback` before `handleHeartbeatFailure` tests it, so the
claimed (and documented) exactly-once invocation does not happen; the
callback count of every cycle is 0. -/
theorem hb_nonOk_stops_but_terminal_callback_never_fires :
    (sendHeartbeat runningState 1000 (some loc0) rejectResp okResp).1.isActive = false
    ∧ callbackCount (sendHeartbeat runningState 1000 (some loc0) rejectResp okResp).2 = 0
    ∧ (∀ (s : HBState) (now : Nat) (loc : Option Location) (r qr : HBResponse),
        callbackCount (sendHeartbeat s now loc r qr).2 = 0)
    ∧ (∀ (now : Nat) (loc : Option Location) (r qr : HBResponse),
        sendHeartbeat stoppedAfterReject now loc r qr = (stoppedAfterReject, [])) := by
  refine ⟨by decide, by decide, sendHeartbeat_no_callback, ?_⟩
  intro now loc r qr
  have hs : stoppedAfterReject.isActive = false := by decide
  unfold sendHeartbeat
  simp [hs]

/-- C2: for a heartbeat response with `login_status:false` (even with
`ok:true`), the code does notify the server of the logout best-effort and
does stop the scheduler, but the terminal-failure callback is never
invoked with the server's reason: `stop()` clears `onFailureCallback`
before the invocation guard reads it. -/
theorem login_status_false_teardown_but_callback_never_invoked :
    (sendHeartbeat runningState 1000 (some loc0) invalidResp okResp).1.isActive = false
    ∧ Effect.logoutApi ∈ (sendHeartbeat runningState 1000 (some loc0) invalidResp okResp).2
    ∧ callbackCount (sendHeartbeat runningState 1000 (some loc0) invalidResp okResp).2 = 0
    ∧ (sendHeartbeat runningState 1000 (some loc0) invalidResp okResp).1.sessionId = none
    ∧ invalidResp.ok = some true := by
  decide

/-- C3 counterexample: with interval 600000 ms and a server-reported
`timeSinceLastHeartbeatMs` of 120000 at restore (now = 0), the scheduler's
first self-scheduled heartbeat fires at 600000 ms, not at the
drift-corrected 480000 ms the claim states, and the timer armed by
`start()` is a fixed-period repeating one. -/
theorem scheduler_not_drift_corrected_counterexample :
    (startSchedule 0 600000).timerPeriodic = true
    ∧ (startSchedule 0 600000).firstTimerFireAt = 600000
    ∧ specDriftFirstFire 0 600000 120000 = 480000
    ∧ (startSchedule 0 600000).firstTimerFireAt ≠ specDriftFirstFire 0 600000 120000 := by
  decide

/-- C3 amended: `start()` sends one immediate heartbeat and arms a
fixed-period repeating `setInterval` timer of length `interval` whose first
fire is `now + interval`; the server-reported `timeSinceLastHeartbeatMs`
only sets the UI's displayed next-heartbeat time
(`now + interval - timeSinceLast`, which is `now + 480000` in the restore
scenario), never the scheduler's timer. -/
theorem scheduler_fixed_period_and_restore_offset_is_display_only :
    (∀ now interval : Nat,
        startSchedule now interval = ⟨now, now + interval, true, interval⟩)
    ∧ (∀ now interval tslh : Int,
        restoreDisplayedNextHeartbeat now interval tslh = now + interval - tslh)
    ∧ restoreDisplayedNextHeartbeat 0 600000 120000 = 480000 := by
  refine ⟨fun now interval => rfl, fun a b c => ?_, by decide⟩
  unfold restoreDisplayedNextHeartbeat
  ring

/-- C4 counterexample: a 40 m reading at 5 s elapsed is accepted
immediately by the code (`acc < 50`), while the claimed tier policy says it
must not be accepted before 10 s; the 29 m at 2 s example agrees with the
code only because 29 < 50. -/
theorem tiered_acceptance_counterexample :
    (forceUpdateStep 5000 40 none).2 = WatchStep.resolveNow 40
    ∧ specTierAccepts 5000 40 = false
    ∧ (forceUpdateStep 2000 29 none).2 = WatchStep.resolveNow 29 := by
  decide

/-- C4 amended: `forceUpdate` accepts any reading with accuracy below 50 m
immediately at any elapsed time (so both the 29 m at 2 s and the 40 m at
5 s readings are accepted at once); a reading of 50 m or worse keeps the
wait going until 60 s have elapsed, after which the best reading so far is
used.  There are no 30 m / 10 s / 100 m / 30 s tiers. -/
theorem forceUpdate_accepts_below_50_immediately :
    ∀ (elapsed acc : Nat) (best : Option Nat),
      (acc < 50 → (forceUpdateStep elapsed acc best).2 = WatchStep.resolveNow acc)
      ∧ (50 ≤ acc → elapsed ≤ bestCutoffMs →
          (forceUpdateStep elapsed acc best).2 = WatchStep.continueWait)
      ∧ (50 ≤ acc → bestCutoffMs < elapsed →
          (forceUpdateStep elapsed acc best).2 = WatchStep.resolveBest) := by
  intro elapsed acc best
  refine ⟨fun h => by simp [forceUpdateStep, h], fun h1 h2 => ?_, fun h1 h2 => ?_⟩
  · have hn : ¬ acc < 50 := by omega
    have hn2 : ¬ elapsed > bestCutoffMs := by omega
    simp [forceUpdateStep, hn, hn2]
  · have hn : ¬ acc < 50 := by omega
    simp [forceUpdateStep, hn, h2]

/-- C4 witness: the amended acceptance policy at concrete inputs. -/
theorem forceUpdate_accepts_below_50_immediately_witness :
    (forceUpdateStep 5000 40 none).2 = WatchStep.resolveNow 40
    ∧ (forceUpdateStep 5000 80 none).2 = WatchStep.continueWait
    ∧ (forceUpdateStep 60001 80 none).2 = WatchStep.resolveBest :=
  ⟨(forceUpdate_accepts_below_50_immediately 5000 40 none).1 (by decide),
   (forceUpdate_accepts_below_50_immediately 5000 80 none).2.1 (by decide) (by decide),
   (forceUpdate_accepts_below_50_immediately 60001 80 none).2.2 (by decide) (by decide)⟩

/-- C6: every `forceUpdate()` call settles (resolves or rejects) no later
than the 75 s ultimate-fallback mark, over every stream of geolocation
events — including streams that never produce an accurate reading and the
empty stream. -/
theorem forceUpdate_always_settles_by_fallback :
    ∀ (cached : Bool) (best : Option Nat) (evs : List GeoEvent),
      (forceUpdateRun cached best evs).settledAtMs ≤ fallbackAtMs := by
  intro cached best evs
  induction evs generalizing best with
  | nil => simp [forceUpdateRun]
  | cons e rest ih =>
    cases e with
    | geoError t c =>
      by_cases h : fallbackAtMs ≤ t
      · simp [forceUpdateRun, h]
      · simp [forceUpdateRun, h]
        exact le_of_not_le h
    | reading t acc =>
      by_cases h : fallbackAtMs ≤ t
      · simp [forceUpdateRun, h]
      · rcases hstep : forceUpdateStep t acc best with ⟨b1, step⟩
        cases step with
        | resolveNow a =>
          simp [forceUpdateRun, h, hstep]
          exact le_of_not_le h
        | resolveBest =>
          simp [forceUpdateRun, h, hstep]
          exact le_of_not_le h
        | continueWait =>
          simp [forceUpdateRun, h, hstep]
          exact ih b1




/-- C7: the offline queue is bounded at 5 with oldest-first eviction — an
enqueue keeps the length at most 5, enqueuing onto a full queue drops the
head while preserving insertion order — and an offline cycle only enqueues:
it returns with no outbound effects and without touching the success or
failure bookkeeping. -/
theorem offline_queue_bounded_and_evicts_oldest :
    (∀ (q : List HeartbeatPulse) (p : HeartbeatPulse),
        q.length ≤ 5 → (enqueuePulse q p).length ≤ 5)
    ∧ (∀ (q : List HeartbeatPulse) (p : HeartbeatPulse),
        q.length = 5 → enqueuePulse q p = q.tail ++ [p])
    ∧ (∀ (s : HBState) (now : Nat) (loc : Location) (r qr : HBResponse),
        s.isActive = true → s.sessionId.isSome = true → s.deviceId.isSome = true →
        s.isOnline = false →
        sendHeartbeat s now (some loc) r qr = (queueHeartbeat s now loc, [])
        ∧ (queueHeartbeat s now loc).lastHeartbeat = s.lastHeartbeat
        ∧ (queueHeartbeat s now loc).failureCount = s.failureCount
        ∧ (queueHeartbeat s now loc).isActive = s.isActive) := by
  refine ⟨?_, ?_, ?_⟩
  · intro q p hq
    unfold enqueuePulse
    by_cases h : (q ++ [p]).length > 5
    · rw [if_pos h, List.length_drop]
      omega
    · rw [if_neg h]
      omega
  · intro q p hq
    cases q with
    | nil => simp at hq
    | cons a t =>
      have ht : t.length = 4 := by simpa using hq
      simp [enqueuePulse, ht]
  · intro s now loc r qr hact hsid hdid hoff
    have hg : ¬ (s.isActive = false ∨ s.sessionId = none ∨ s.deviceId = none) := by
      push_neg
      exact ⟨by simp [hact], Option.isSome_iff_ne_none.mp hsid,
        Option.isSome_iff_ne_none.mp hdid⟩
    refine ⟨?_, by simp [queueHeartbeat], by simp [queueHeartbeat],
      by simp [queueHeartbeat]⟩
    simp [sendHeartbeat, hg, hoff]

/-- A pulse used to exercise the queue at its bound. -/
def mkPulse (i : Nat) : HeartbeatPulse := ⟨i, loc0, "sess-1", "dev-1"⟩

/-- A full offline queue of 5 pulses, oldest first. -/
def fullQueue : List HeartbeatPulse :=
  [mkPulse 1, mkPulse 2, mkPulse 3, mkPulse 4, mkPulse 5]

/-- An offline but otherwise running scheduler. -/
def offlineState : HBState :=
  ⟨true, some "sess-1", some "dev-1", true, 0, true, none, false, []⟩

/-- C7 witness: the bound, the eviction and the effect-free offline cycle
at concrete inputs. -/
theorem offline_queue_bounded_and_evicts_oldest_witness :
    (enqueuePulse fullQueue (mkPulse 6)).length ≤ 5
    ∧ enqueuePulse fullQueue (mkPulse 6) = fullQueue.tail ++ [mkPulse 6]
    ∧ (sendHeartbeat offlineState 7 (some loc0) okResp okResp
        = (queueHeartbeat offlineState 7 loc0, [])
      ∧ (queueHeartbeat offlineState 7 loc0).lastHeartbeat = offlineState.lastHeartbeat
      ∧ (queueHeartbeat offlineState 7 loc0).failureCount = offlineState.failureCount
      ∧ (queueHeartbeat offlineState 7 loc0).isActive = offlineState.isActive) :=
  ⟨offline_queue_bounded_and_evicts_oldest.1 fullQueue (mkPulse 6) (by decide),
   offline_queue_bounded_and_evicts_oldest.2.1 fullQueue (mkPulse 6) (by decide),
   offline_queue_bounded_and_evicts_oldest.2.2 offlineState 7 loc0 okResp okResp
     (by decide) (by decide) (by decide) (by decide)⟩

/-- C8: flushing a non-empty offline queue transmits exactly one pulse —
the most recently queued one — discards the older entries untransmitted,
and leaves the queue empty for every transport result. -/
theorem reconnect_flush_transmits_only_latest :
    ∀ (s : HBState) (p : HeartbeatPulse) (r : HBResponse),
      s.queuedHeartbeats.getLast? = some p →
      (processQueuedHeartbeats s r).1.queuedHeartbeats = []
      ∧ (processQueuedHeartbeats s r).2 = [Effect.transmit p]
      ∧ (∀ r2 : HBResponse, processQueuedHeartbeats s r2 = processQueuedHeartbeats s r) := by
  intro s p r h
  refine ⟨by simp [processQueuedHeartbeats, h], by simp [processQueuedHeartbeats, h], ?_⟩
  intro r2
  simp [processQueuedHeartbeats, h]

/-- A scheduler holding two queued pulses. -/
def flushState : HBState :=
  ⟨true, some "sess-1", some "dev-1", true, 0, true, none, true,
    [mkPulse 1, mkPulse 2]⟩

/-- C8 witness: flushing the two-pulse queue transmits only the newest
pulse and empties the queue. -/
theorem reconnect_flush_transmits_only_latest_witness :
    (processQueuedHeartbeats flushState okResp).1.queuedHeartbeats = []
    ∧ (processQueuedHeartbeats flushState okResp).2 = [Effect.transmit (mkPulse 2)] :=
  ⟨(reconnect_flush_transmits_only_latest flushState (mkPulse 2) okResp (by decide)).1,
   (reconnect_flush_transmits_only_latest flushState (mkPulse 2) okResp (by decide)).2.1⟩

/-- An error-response body carrying the explicit `login_status:false`
invalidation signal. -/
def invalidBody : RespData :=
  ⟨some false, none, some "Session invalidated by server", none⟩

/-- C5 counterexample: two near-simultaneous Invalid verdicts (one tagged
from the heartbeat path, one from an unrelated call) run the teardown
handler twice — two `clearSession` executions, the second event is not a
no-op — and a single `login_status:false` error response already dispatches
two `forceLogout` events. -/
theorem duplicate_invalid_verdicts_counterexample :
    clearCount (processForceLogoutEvents loggedInApp [invalidVerdictA, invalidVerdictB]).2 = 2
    ∧ (onForceLogoutEvent (onForceLogoutEvent loggedInApp invalidVerdictA).1 invalidVerdictB).2 ≠ []
    ∧ (errorDispatches (some (200, invalidBody)) "err").length = 2 := by
  decide

/-- C5 amended: Invalid verdicts are not collapsed — from a logged-in
state, two dispatched `forceLogout` events each run the full teardown
handler (two session-clear executions); only the best-effort server logout
call happens exactly once, because the second run finds the session id
already cleared; the session itself is logged out from the first verdict
on. -/
theorem invalid_verdicts_not_collapsed :
    ∀ (a : AppState) (d1 d2 : Dispatch),
      a.isLoggedIn = true → a.sessionId.isSome = true →
      clearCount (processForceLogoutEvents a [d1, d2]).2 = 2
      ∧ logoutApiCount (processForceLogoutEvents a [d1, d2]).2 = 1
      ∧ (onForceLogoutEvent a d1).1.isLoggedIn = false
      ∧ (processForceLogoutEvents a [d1, d2]).1.isLoggedIn = false := by
  intro a d1 d2 h1 h2
  refine ⟨?_, ?_, ?_, ?_⟩ <;>
    simp [processForceLogoutEvents, onForceLogoutEvent, handleAutoLogout,
      clearSession, clearCount, logoutApiCount, isClearEffect, isLogoutApiEffect, h2]

/-- C5 witness: the amended non-collapse behaviour at the concrete
logged-in application state and two concrete verdicts. -/
theorem invalid_verdicts_not_collapsed_witness :
    clearCount (processForceLogoutEvents loggedInApp [invalidVerdictA, invalidVerdictB]).2 = 2
    ∧ logoutApiCount
        (processForceLogoutEvents loggedInApp [invalidVerdictA, invalidVerdictB]).2 = 1 :=
  ⟨(invalid_verdicts_not_collapsed loggedInApp invalidVerdictA invalidVerdictB
      (by decide) (by decide)).1,
   (invalid_verdicts_not_collapsed loggedInApp invalidVerdictA invalidVerdictB
      (by decide) (by decide)).2.1⟩

/-- C9: a transport-level failure with no server response dispatches no
`forceLogout` event, and on the error path a `forceLogout` event is
dispatched only for an explicit server signal (`login_status:false` or
`force_logout:true`) or an auth-class HTTP status (401, 403, 419, 440). -/
theorem transport_errors_never_dispatch_logout :
    (∀ msg : String, errorDispatches none msg = [])
    ∧ (∀ (status : Nat) (d : RespData) (msg : String),
        errorDispatches (some (status, d)) msg ≠ [] →
        d.login_status = some false ∨ d.force_logout = some true
        ∨ status ∈ [401, 403, 419, 440]) := by
  constructor
  · intro msg
    rfl
  · intro status d msg hne
    by_cases h1 : d.login_status = some false
    · exact Or.inl h1
    by_cases h2 : d.force_logout = some true
    · exact Or.inr (Or.inl h2)
    by_cases h3 : status ∈ [401, 403, 419, 440]
    · exact Or.inr (Or.inr h3)
    exact absurd (by simp [errorDispatches, h1, h2, h3]) hne

/-- C9 witness: the classifier applied to a bare 401 with an empty body. -/
theorem transport_errors_never_dispatch_logout_witness :
    emptyRespData.login_status = some false ∨ emptyRespData.force_logout = some true
    ∨ 401 ∈ [401, 403, 419, 440] :=
  transport_errors_never_dispatch_logout.2 401 emptyRespData "Network Error" (by decide)

/-- C10: `verifySession` is total and yields an object on every input
(`{valid:false}` for transport failures and non-ok responses alike), and
the restore path in `initializeApp` tests only the truthiness of that
object — so a saved session is always restored and the heartbeat service
started, even when the server reported the session invalid, and the
clear-invalid-session branch never runs. -/
theorem saved_session_always_restored :
    (∀ (sid : String) (inp : Except String VerifyResp),
        initializeAppRestore (some sid) inp = ⟨true, true, false⟩)
    ∧ (verifySession (Except.error "Network Error")).valid = false
    ∧ jsTruthy (verifySessionJs (Except.error "Network Error")) = true
    ∧ (verifySession (Except.ok ⟨some false⟩)).valid = false
    ∧ initializeAppRestore (some "sess-1") (Except.error "Network Error")
        = ⟨true, true, false⟩ := by
  refine ⟨?_, by decide, by decide, by decide, by decide⟩
  intro sid inp
  simp [initializeAppRestore, verifySessionJs, jsTruthy]
